import Mathlib

/-!
A verification development for the DSPy optimization worker
(`src/renderer/dspy/dspy_optimizer.py`): a shallow embedding of the
worker's data model and pipeline stages, and theorems settling the
specification's claims against that embedding.

Modelling conventions:
* Python strings are Lean `String`s; `str.strip()` / `str.lower()` are
  modelled over their ASCII behaviour (every string the claims touch is
  ASCII).
* Python dict lookups with `.get` / `in` are modelled by `Option` fields.
* Effects (stdout messages, the process-wide `dspy.configure` binding,
  calls into the DSPy library that invoke the language model) are modelled
  by a writer/exception monad `M` over a `Trace` of protocol messages and
  external events; genuinely external operations (JSON parsing, `exec` of
  user metric code, optimizer compilation, evaluation, saving) are oracle
  parameters.
-/

namespace DspyOptimizer

/-! ## Python string primitives -/

/-- Python whitespace as `str.strip()` sees it (ASCII fragment). -/
def pyIsSpace (c : Char) : Bool :=
  c = ' ' || c = '\t' || c = '\n' || c = '\r' || c = '\x0b' || c = '\x0c'

/-- Python `str.strip()`: drop leading and trailing whitespace. -/
def pyStrip (s : String) : String :=
  ⟨((s.toList.dropWhile pyIsSpace).reverse.dropWhile pyIsSpace).reverse⟩

/-- Python `str.lower()` (ASCII fragment): lower-case each character. -/
def pyLower (s : String) : String :=
  ⟨s.toList.map Char.toLower⟩

/-- Python `needle in hay` on strings: substring containment. -/
def pyIn (needle hay : String) : Bool :=
  decide (List.IsInfix needle.toList hay.toList)

/-! ## Values and the data model -/

/-- A JSON scalar as it can appear in an `input`/`output` slot of the raw
dataset; `pyStr` is Python's `str()` on it. -/
inductive JVal where
  | s (v : String)
  | i (n : Int)
  | b (v : Bool)
  | null
  deriving DecidableEq, Repr

/-- Python `str()` on a `JVal`. -/
def pyStr : JVal → String
  | .s v => v
  | .i n => toString n
  | .b true => "True"
  | .b false => "False"
  | .null => "None"

/-- `dspy.Example(question=..., answer=...).with_inputs('question')`:
the worker's fixed question/answer example shape. `inputKeys` records the
fields marked as inputs by `.with_inputs`. -/
structure Example where
  question : String
  answer : String
  inputKeys : List String
  deriving DecidableEq, Repr

/-- A DSPy `Prediction` as the metrics see it: `answer = none` models a
prediction object on which `hasattr(pred, 'answer')` is false. -/
structure Prediction where
  answer : Option String
  deriving DecidableEq, Repr

/-- One element of the raw train/validation dataset: a dict that may or
may not carry the `input` and `output` keys. -/
structure RawItem where
  input : Option JVal := none
  output : Option JVal := none
  deriving DecidableEq, Repr

/-! ## Metrics (`create_metric`, lines 149-257) -/

/-- The closure `exact_match_metric` built by `create_metric` for kind
`exact_match`, with its captured `case_sensitive` flag as first argument.
Mirrors lines 172-187: missing `answer` attribute scores `False`; both
strings are stripped, and additionally lower-cased when not case
sensitive; then compared for equality. -/
def exact_match_metric (case_sensitive : Bool) (ex : Example)
    (pred : Prediction) : Bool :=
  match pred.answer with
  | none => false
  | some predAnswer =>
    let expected := ex.answer
    let predicted := predAnswer
    if !case_sensitive then
      pyLower (pyStrip expected) == pyLower (pyStrip predicted)
    else
      pyStrip expected == pyStrip predicted

/-- The closure `contains_metric` built by `create_metric` for kind
`contains`, with its captured `case_sensitive` flag as first argument.
Mirrors lines 195-207: missing `answer` scores `False`; when not case
sensitive both strings are stripped and lower-cased — when case sensitive
no normalization at all is applied (the source has no `else` branch) —
then the expected string is tested for membership in the predicted one. -/
def contains_metric (case_sensitive : Bool) (ex : Example)
    (pred : Prediction) : Bool :=
  match pred.answer with
  | none => false
  | some predAnswer =>
    let expected := ex.answer
    let predicted := predAnswer
    if !case_sensitive then
      pyIn (pyLower (pyStrip expected)) (pyLower (pyStrip predicted))
    else
      pyIn expected predicted

/-! ## Configuration sub-documents -/

/-- The `model_config` sub-document (`setup_language_model`, lines 42-103);
every key is read with `.get`, so each field is optional. -/
structure ModelConfig where
  provider : Option String := none
  model : Option String := none
  api_key : Option String := none
  api_base : Option String := none
  deriving DecidableEq, Repr

/-- The resolved `dspy.LM(...)` handle. -/
structure LM where
  model : String
  api_key : String
  api_base : Option String
  deriving DecidableEq, Repr

/-- The `metric_config` sub-document (`create_metric`, lines 149-257). -/
structure MetricConfig where
  type : Option String := none
  code : Option String := none
  case_sensitive : Option Bool := none
  deriving DecidableEq, Repr

/-- The `optimizer_config` sub-document (lines 347-350 and 401-407). -/
structure OptimizerConfig where
  max_bootstrapped_demos : Option Int := none
  max_labeled_demos : Option Int := none
  metric_threshold : Option ℚ := none
  max_rounds : Option Int := none
  mode : Option String := none
  num_trials : Option Int := none
  minibatch : Option Bool := none
  minibatch_size : Option Int := none
  deriving DecidableEq, Repr

/-! ## Metric values and programs -/

/-- The type of a user-supplied custom metric function (the callable the
`exec`ed code binds to `metric_function`). -/
def CustomFn := Example → Prediction → Bool

/-- What executing the custom metric code text can yield: the `exec` call
raising, a namespace without `metric_function`, a non-callable
`metric_function`, or a callable. -/
inductive ExecOutcome where
  | raised (msg : String)
  | noMetricFunction
  | notCallable
  | ok (f : CustomFn)

/-- The metric value `create_metric` returns: one of the two local
closures with its captured flag, the library `SemanticF1` scorer, or a
user-supplied callable. -/
inductive Metric where
  | exactMatch (case_sensitive : Bool)
  | containsM (case_sensitive : Bool)
  | semanticF1
  | custom (f : CustomFn)

/-- The three program shapes `create_dspy_program` can build
(lines 278-312), each a single-predictor `question -> answer` module. -/
inductive Program where
  | simpleQA
  | chainOfThoughtQA
  | reActQA
  deriving DecidableEq, Repr

/-- Python's `type(program).__name__` on the three shapes. -/
def programClassName : Program → String
  | .simpleQA => "SimpleQA"
  | .chainOfThoughtQA => "ChainOfThoughtQA"
  | .reActQA => "ReActQA"

/-! ## Compiled programs and result extraction -/

/-- A demonstration attached to a predictor; `question`/`answer` are
`none` when `hasattr(demo, ...)` is false. -/
structure Demo where
  question : Option String := none
  answer : Option String := none
  deriving DecidableEq, Repr

/-- One named predictor of a compiled program, as
`extract_optimized_results` probes it: `extended_signature`, when
present, holds `getattr(sig, 'instructions', '')`; `demos`, when
present, holds the demonstration list. -/
structure PredictorModule where
  name : String
  typeName : String
  extended_signature : Option String := none
  demos : Option (List Demo) := none
  deriving DecidableEq, Repr

/-- A compiled DSPy program: its `named_predictors()` sequence. -/
structure CompiledProgram where
  predictors : List PredictorModule
  deriving DecidableEq, Repr

/-- One entry of the `demos` list `extract_optimized_results` builds. -/
structure DemoDict where
  predictor : String
  input : String
  output : String
  deriving DecidableEq, Repr

/-- One entry of the `predictors` list `extract_optimized_results`
builds. -/
structure PredictorInfo where
  name : String
  typeName : String
  instruction : Option String := none
  demo_count : Option Nat := none
  deriving DecidableEq, Repr

/-- The dictionary `extract_optimized_results` returns. -/
structure ExtractedResults where
  instructions : List (String × String)
  demos : List DemoDict
  predictors : List PredictorInfo
  deriving DecidableEq, Repr

/-! ## Protocol messages, events and the worker monad -/

/-- The payload of the single success message (lines 674-687). -/
structure SuccessResult where
  validation_score : ℚ
  optimized_signature : List (String × String)
  optimized_demos : List DemoDict
  predictors : List PredictorInfo
  compiled_program_path : String
  dataset_sizes_train : Nat
  dataset_sizes_val : Nat
  optimizer : String
  program_type : String
  deriving DecidableEq, Repr

/-- A line-delimited protocol message on stdout: progress, the terminal
success message, or the terminal error message (with traceback text). -/
inductive Msg where
  | progress (message : String)
  | success (result : SuccessResult)
  | error (message : String) (tb : String)
  deriving DecidableEq, Repr

/-- A message is terminal when it is success or error. -/
def isTerminalMsg : Msg → Bool
  | .progress _ => false
  | .success _ => true
  | .error _ _ => true

/-- External actions of a run: installing the active model
(`dspy.configure`), and the operations that invoke the language model
(optimizer compilation and evaluation). -/
inductive Event where
  | configure
  | compileBootstrap
  | compileMipro
  | evaluate
  deriving DecidableEq, Repr

/-- The observable trace of a run so far: emitted messages and external
events, in order. -/
structure Trace where
  msgs : List Msg
  events : List Event
  deriving DecidableEq, Repr

def Trace.empty : Trace := ⟨[], []⟩

/-- The worker monad: a computation threads the trace and either returns
a value or raises a Python exception, carried as its `str(e)` text. -/
def M (α : Type) : Type := Trace → Trace × Except String α

def M.pure {α : Type} (a : α) : M α := fun t => (t, .ok a)

def M.bind {α β : Type} (x : M α) (f : α → M β) : M β := fun t =>
  match x t with
  | (t', .ok a) => f a t'
  | (t', .error e) => (t', .error e)

instance : Monad M where
  pure := M.pure
  bind := M.bind

/-- `log_progress(message)` (lines 22-27): append one progress message. -/
def log_progress (message : String) : M Unit := fun t =>
  ({ t with msgs := t.msgs ++ [Msg.progress message] }, .ok ())

/-- Record an external event. -/
def emitEvent (e : Event) : M Unit := fun t =>
  ({ t with events := t.events ++ [e] }, .ok ())

/-- `raise`: abort with the exception's text. -/
def throwErr {α : Type} (e : String) : M α := fun t => (t, .error e)

/-- Run a trace-free fallible operation inside `M`. -/
def liftExcept {α : Type} (x : Except String α) : M α := fun t => (t, x)

/-! ## Model provisioning (`setup_language_model`, lines 42-103) -/

/-- Python `x or default` on an optional string: `None` and `''` are
falsy. Models `api_base or 'http://localhost:11434'`. -/
def pyOrStr (x : Option String) (default : String) : String :=
  match x with
  | none => default
  | some s => if s = "" then default else s

/-- `setup_language_model(config)`: resolve the provider-specific
`dspy.LM` handle and install it via `dspy.configure` (the `.configure`
event). `env` models `os.environ.get(name, '')`. -/
def setup_language_model (env : String → String) (config : ModelConfig) :
    M LM := do
  let provider := config.provider.getD "ollama"
  let model_id := config.model.getD "llama3.2:1b"
  let api_key := config.api_key.getD ""
  let api_base := config.api_base
  log_progress s!"Configuring {provider} with model {model_id}"
  let lm ←
    if provider = "ollama" then
      M.pure { model := "ollama_chat/" ++ model_id,
               api_base := some (pyOrStr api_base "http://localhost:11434"),
               api_key := "" }
    else if provider = "openai" then
      let key := if api_key = "" then env "OPENAI_API_KEY" else api_key
      M.pure { model := "openai/" ++ model_id, api_key := key,
               api_base := none }
    else if provider = "anthropic" then
      let key := if api_key = "" then env "ANTHROPIC_API_KEY" else api_key
      M.pure { model := "anthropic/" ++ model_id, api_key := key,
               api_base := none }
    else
      throwErr s!"Unsupported provider: {provider}. Use 'ollama', 'openai', or 'anthropic'."
  emitEvent .configure
  log_progress "Language model configured successfully"
  M.pure lm

/-! ## Dataset preparation (`prepare_dataset`, lines 110-142) -/

/-- The validation error text for an element lacking a field. -/
def prepareMissingMsg (dataset_name : String) (i : Nat) : String :=
  s!"{dataset_name}[{i}] missing 'input' or 'output' field"

/-- The loop body of `prepare_dataset` (lines 128-139): walk the raw
items in order starting at index `i`, failing at the first element that
lacks `input` or `output`. -/
def prepareItems (dataset_name : String) :
    List RawItem → Nat → Except String (List Example)
  | [], _ => .ok []
  | item :: rest, i =>
    match item.input, item.output with
    | some inputVal, some outputVal =>
      match prepareItems dataset_name rest (i + 1) with
      | .ok examples =>
        .ok ({ question := pyStr inputVal, answer := pyStr outputVal,
               inputKeys := ["question"] } :: examples)
      | .error e => .error e
    | _, _ => .error (prepareMissingMsg dataset_name i)

/-- `prepare_dataset(dataset_raw, dataset_name)`. -/
def prepare_dataset (dataset_raw : List RawItem) (dataset_name : String) :
    M (List Example) := do
  if dataset_raw.isEmpty then
    throwErr s!"{dataset_name} is empty"
  else do
    let examples ← liftExcept (prepareItems dataset_name dataset_raw 0)
    log_progress s!"Prepared {examples.length} examples for {dataset_name}"
    M.pure examples

/-! ## Auto-split (in `main`, lines 622-631) -/

/-- Models `int(len(trainset) * 0.8)`: the literal `0.8` is the IEEE-754
double 3602879701896397 / 2^52, and for every list length arising here
the rounded double product truncates to the same integer as the exact
rational product, so the split index is the floor of
n * 3602879701896397 / 2^52. -/
def splitIdx (n : Nat) : Nat :=
  n * 3602879701896397 / 4503599627370496

/-- The auto-split block of `main` (lines 622-631): the new trainset, the
valset, and the progress message logged for the branch taken. -/
def autoSplit (trainset : List Example) :
    List Example × List Example × String :=
  let split_idx := splitIdx trainset.length
  if split_idx < trainset.length then
    let valset := trainset.drop split_idx
    let newTrain := trainset.take split_idx
    (newTrain, valset,
      s!"Auto-split dataset: {newTrain.length} train, {valset.length} val")
  else
    (trainset, trainset,
      "Dataset too small for split, using same data for train and val")

/-- The auto-split branch as run by `main`: split, log the message. -/
def autoSplitStep (trainset : List Example) :
    M (List Example × List Example) := do
  let (ts, vs, m) := autoSplit trainset
  log_progress m
  M.pure (ts, vs)

/-! ## Metric factory (`create_metric`, lines 149-257) -/

/-- `create_metric(metric_config)`. `execCustom` models `exec`uting the
custom code text in the constrained namespace; `semanticF1Available`
models whether `from dspy.evaluate import SemanticF1` succeeds. The
source's recursive call `create_metric({'type': 'exact_match'})` in the
`semantic_f1` fallback is inlined (it logs its own creation message and
returns the exact-match closure with a fresh config, whose
`case_sensitive` defaults to `False`). The two inner `ValueError`s of
the `custom` branch are re-raised by the surrounding `except` as
`Failed to compile custom metric: {str(e)}`. -/
def create_metric (execCustom : String → ExecOutcome)
    (semanticF1Available : Bool) (metric_config : MetricConfig) :
    M Metric := do
  let metric_type := metric_config.type.getD "exact_match"
  log_progress s!"Creating metric: {metric_type}"
  if metric_type = "exact_match" then
    M.pure (.exactMatch (metric_config.case_sensitive.getD false))
  else if metric_type = "contains" then
    M.pure (.containsM (metric_config.case_sensitive.getD false))
  else if metric_type = "semantic_f1" then
    if semanticF1Available then
      M.pure .semanticF1
    else do
      log_progress "SemanticF1 not available, falling back to exact match"
      log_progress "Creating metric: exact_match"
      M.pure (.exactMatch false)
  else if metric_type = "custom" then do
    let custom_code := metric_config.code.getD ""
    if pyStrip custom_code = "" then
      throwErr "Custom metric requires 'code' field with Python function"
    else do
      log_progress "Compiling custom metric code"
      match execCustom custom_code with
      | .raised e =>
        throwErr s!"Failed to compile custom metric: {e}"
      | .noMetricFunction =>
        throwErr "Failed to compile custom metric: Custom metric code must define 'metric_function'"
      | .notCallable =>
        throwErr "Failed to compile custom metric: metric_function must be a callable function"
      | .ok f => do
        log_progress "Custom metric compiled successfully"
        M.pure (.custom f)
  else
    throwErr s!"Unknown metric type: {metric_type}. Use 'exact_match', 'contains', 'semantic_f1', or 'custom'."

/-! ## Program factory (`create_dspy_program`, lines 264-317) -/

/-- `create_dspy_program(program_type)`. The source's recursive call
`create_dspy_program('predict')` in the unknown-kind fallback is inlined
(it logs its own creation message and returns `SimpleQA()`). -/
def create_dspy_program (program_type : String) : M Program := do
  log_progress s!"Creating DSPy program: {program_type}"
  if program_type = "predict" then
    M.pure .simpleQA
  else if program_type = "chain_of_thought" then
    M.pure .chainOfThoughtQA
  else if program_type = "react" then
    M.pure .reActQA
  else do
    log_progress s!"Unknown program type '{program_type}', using 'predict'"
    log_progress "Creating DSPy program: predict"
    M.pure .simpleQA

/-! ## Optimizers (lines 324-438) -/

/-- The settings `run_bootstrap_fewshot` passes to
`BootstrapFewShot(...)` / `.compile(...)`. -/
structure BootstrapSettings where
  max_bootstrapped_demos : Int
  max_labeled_demos : Int
  max_rounds : Int
  metric_threshold : Option ℚ
  deriving DecidableEq

/-- The settings `run_mipro` passes to `MIPROv2(...)` / `.compile(...)`. -/
structure MiproSettings where
  mode : String
  num_trials : Int
  max_bootstrapped_demos : Int
  max_labeled_demos : Int
  minibatch : Bool
  minibatch_size : Int
  metric_threshold : Option ℚ
  deriving DecidableEq

/-- `run_bootstrap_fewshot(program, trainset, metric, config)`.
`compileOracle` models the library's `optimizer.compile(...)` call, the
one operation of this function that invokes the language model. -/
def run_bootstrap_fewshot
    (compileOracle : Program → List Example → Metric → BootstrapSettings →
      Except String CompiledProgram)
    (program : Program) (trainset : List Example) (metric : Metric)
    (config : OptimizerConfig) : M CompiledProgram := do
  log_progress "Starting BootstrapFewShot optimization"
  let max_bootstrapped := config.max_bootstrapped_demos.getD 4
  let max_labeled := config.max_labeled_demos.getD 16
  let metric_threshold := config.metric_threshold
  let max_rounds := config.max_rounds.getD 1
  log_progress s!"Config: max_bootstrapped={max_bootstrapped}, max_labeled={max_labeled}"
  log_progress "Compiling program with BootstrapFewShot..."
  emitEvent .compileBootstrap
  let compiled_program ← liftExcept (compileOracle program trainset metric
    { max_bootstrapped_demos := max_bootstrapped,
      max_labeled_demos := max_labeled, max_rounds := max_rounds,
      metric_threshold := metric_threshold })
  log_progress "BootstrapFewShot optimization complete"
  M.pure compiled_program

/-- `run_mipro(program, trainset, valset, metric, config)`. -/
def run_mipro
    (compileOracle : Program → List Example → List Example → Metric →
      MiproSettings → Except String CompiledProgram)
    (program : Program) (trainset valset : List Example) (metric : Metric)
    (config : OptimizerConfig) : M CompiledProgram := do
  log_progress "Starting MIPROv2 optimization"
  let mode := config.mode.getD "light"
  let num_trials := config.num_trials.getD 30
  let max_bootstrapped := config.max_bootstrapped_demos.getD 4
  let max_labeled := config.max_labeled_demos.getD 4
  let minibatch := config.minibatch.getD true
  let minibatch_size := config.minibatch_size.getD 35
  let metric_threshold := config.metric_threshold
  log_progress s!"Config: mode={mode}, trials={num_trials}, minibatch={minibatch}"
  log_progress "Compiling program with MIPROv2 (this may take several minutes)..."
  emitEvent .compileMipro
  let compiled_program ← liftExcept (compileOracle program trainset valset
    metric
    { mode := mode, num_trials := num_trials,
      max_bootstrapped_demos := max_bootstrapped,
      max_labeled_demos := max_labeled, minibatch := minibatch,
      minibatch_size := minibatch_size,
      metric_threshold := metric_threshold })
  log_progress "MIPROv2 optimization complete"
  M.pure compiled_program

/-! ## Evaluation (`evaluate_program`, lines 445-479) -/

/-- `evaluate_program(program, devset, metric, num_threads)`.
`evalOracle` models `Evaluate(...)(program)`, which invokes the language
model; the score's three-decimal text formatting in the completion
message is abstracted to the rational's own rendering. -/
def evaluate_program
    (evalOracle : CompiledProgram → List Example → Metric → Int →
      Except String ℚ)
    (program : CompiledProgram) (devset : List Example) (metric : Metric)
    (num_threads : Int := 1) : M ℚ := do
  log_progress s!"Evaluating program on {devset.length} examples"
  emitEvent .evaluate
  let score ← liftExcept (evalOracle program devset metric num_threads)
  log_progress s!"Evaluation complete: score = {score}"
  M.pure score

/-! ## Result extraction (`extract_optimized_results`, lines 486-541) -/

/-- One iteration of the predictor loop (lines 506-534). -/
def extract_step (acc : ExtractedResults) (module : PredictorModule) :
    ExtractedResults :=
  let info0 : PredictorInfo :=
    { name := module.name, typeName := module.typeName }
  let (instructions, info1) :=
    match module.extended_signature with
    | some instruction =>
      if instruction ≠ "" then
        (acc.instructions ++ [(module.name, instruction)],
         { info0 with instruction := some instruction })
      else
        (acc.instructions, info0)
    | none => (acc.instructions, info0)
  let (demos, info2) :=
    match module.demos with
    | some ds =>
      (acc.demos ++ (ds.take 10).map (fun demo =>
        { predictor := module.name,
          input := demo.question.getD "",
          output := demo.answer.getD "" }),
       { info1 with demo_count := some ds.length })
    | none => (acc.demos, info1)
  { instructions := instructions, demos := demos,
    predictors := acc.predictors ++ [info2] }

/-- `extract_optimized_results(compiled_program)`. The predictor walk is
total on this model, so the source's internal `try/except` (which would
log a warning and keep partial results) never fires. -/
def extract_optimized_results (compiled_program : CompiledProgram) :
    M ExtractedResults := do
  log_progress "Extracting optimized components"
  let results := compiled_program.predictors.foldl extract_step ⟨[], [], []⟩
  log_progress s!"Extracted {results.predictors.length} predictors, {results.demos.length} demos"
  M.pure results

/-! ## Persistence (`save_compiled_program`, lines 548-577) -/

/-- `save_compiled_program(compiled_program, save_path)`. `saveOracle`
models `os.makedirs` + `compiled_program.save(save_path)`; `abspath`
models `os.path.abspath`. A save failure is logged as a progress warning
and the requested path returned — it never raises. -/
def save_compiled_program
    (saveOracle : CompiledProgram → String → Except String Unit)
    (abspath : String → String) (compiled_program : CompiledProgram)
    (save_path : String) : M String := do
  log_progress s!"Saving compiled program to {save_path}"
  match saveOracle compiled_program save_path with
  | .ok _ => do
    let abs_path := abspath save_path
    log_progress s!"Program saved successfully to {abs_path}"
    M.pure abs_path
  | .error e => do
    log_progress s!"Warning: Failed to save program: {e}"
    M.pure save_path

/-! ## The configuration document and the main workflow (lines 584-698) -/

/-- The parsed configuration document. Optional fields model keys read
with `.get` / `in`; `model_config`, `train_dataset` and `metric_config`
are read with `config[...]` and raise `KeyError` when absent. -/
structure ConfigDoc where
  model_config : Option ModelConfig := none
  train_dataset : Option (List RawItem) := none
  val_dataset : Option (List RawItem) := none
  metric_config : Option MetricConfig := none
  program_type : Option String := none
  optimizer : Option String := none
  optimizer_config : Option OptimizerConfig := none
  save_path : Option String := none

/-- `config[key]`: the value, or a `KeyError` whose `str()` is the
quoted key name. -/
def requireKey {α : Type} (key : String) : Option α → M α
  | some v => M.pure v
  | none => throwErr s!"'{key}'"

/-- The run's external environment: the stdin text and the operations
the worker delegates to Python's runtime and the DSPy library. -/
structure Oracles where
  stdin : String
  parse : String → Except String ConfigDoc
  dspyOk : Bool
  dspyVersion : String
  env : String → String
  execCustom : String → ExecOutcome
  semanticF1Available : Bool
  bootstrapCompile : Program → List Example → Metric → BootstrapSettings →
    Except String CompiledProgram
  miproCompile : Program → List Example → List Example → Metric →
    MiproSettings → Except String CompiledProgram
  evalScore : CompiledProgram → List Example → Metric → Int →
    Except String ℚ
  saveResult : CompiledProgram → String → Except String Unit
  abspath : String → String
  tbOf : String → String

/-- The validation-set block of `main` (lines 618-631): prepare the
supplied `val_dataset` when present and non-empty (Python truthiness),
otherwise auto-split the trainset. Returns the final
(trainset, valset). -/
def datasetSplitStage (config : ConfigDoc) (trainset0 : List Example) :
    M (List Example × List Example) :=
  match config.val_dataset with
  | some val_raw =>
    if val_raw.isEmpty then
      autoSplitStep trainset0
    else do
      let valset ← prepare_dataset val_raw "val_dataset"
      M.pure (trainset0, valset)
  | none => autoSplitStep trainset0

/-- The optimizer dispatch of `main` (lines 648-657). -/
def optimizerStage (o : Oracles) (optimizer_type : String)
    (program : Program) (trainset valset : List Example) (metric : Metric)
    (optimizer_config : OptimizerConfig) : M CompiledProgram :=
  if optimizer_type = "BootstrapFewShot" then
    run_bootstrap_fewshot o.bootstrapCompile program trainset metric
      optimizer_config
  else if optimizer_type = "MIPRO" ∨ optimizer_type = "MIPROv2" then
    run_mipro o.miproCompile program trainset valset metric
      optimizer_config
  else
    throwErr s!"Unknown optimizer: {optimizer_type}"

/-- Steps 2-11 of `main` (lines 600-689), from the DSPy import check to
the assembled success payload, for an already parsed configuration. -/
def mainFromConfig (o : Oracles) (config : ConfigDoc) : M SuccessResult := do
  log_progress "Importing DSPy library..."
  if o.dspyOk then do
    log_progress s!"DSPy version {o.dspyVersion} loaded"
    log_progress "Setting up language model..."
    let model_config ← requireKey "model_config" config.model_config
    let _lm ← setup_language_model o.env model_config
    log_progress "Preparing datasets..."
    let train_raw ← requireKey "train_dataset" config.train_dataset
    let trainset0 ← prepare_dataset train_raw "train_dataset"
    let split ← datasetSplitStage config trainset0
    let trainset := split.1
    let valset := split.2
    log_progress "Creating evaluation metric..."
    let metric_config ← requireKey "metric_config" config.metric_config
    let metric ← create_metric o.execCustom o.semanticF1Available
      metric_config
    let program_type := config.program_type.getD "predict"
    let program ← create_dspy_program program_type
    log_progress s!"DSPy program created: {programClassName program}"
    let optimizer_type := config.optimizer.getD "BootstrapFewShot"
    let optimizer_config := config.optimizer_config.getD {}
    log_progress s!"Starting {optimizer_type} optimization..."
    let compiled_program ← optimizerStage o optimizer_type program trainset
      valset metric optimizer_config
    log_progress "Evaluating optimized program..."
    let validation_score ← evaluate_program o.evalScore compiled_program
      valset metric
    log_progress "Extracting optimization results..."
    let extracted_results ← extract_optimized_results compiled_program
    let save_path := config.save_path.getD "./dspy_compiled_program"
    let saved_path ← save_compiled_program o.saveResult o.abspath
      compiled_program save_path
    log_progress "Optimization complete!"
    M.pure {
      validation_score := validation_score,
      optimized_signature := extracted_results.instructions,
      optimized_demos := extracted_results.demos,
      predictors := extracted_results.predictors,
      compiled_program_path := saved_path,
      dataset_sizes_train := trainset.length,
      dataset_sizes_val := valset.length,
      optimizer := optimizer_type,
      program_type := program_type }
  else
    throwErr "DSPy library not found. Please install it with: pip install dspy-ai"

/-- The body of `main`'s `try` block (lines 588-690): read stdin, parse
the configuration, then run the pipeline. -/
def mainBody (o : Oracles) : M SuccessResult := do
  log_progress "Reading configuration from stdin..."
  let config_json := o.stdin
  if config_json = "" ∨ pyStrip config_json = "" then
    throwErr "No configuration received on stdin"
  else do
    log_progress "Parsing configuration..."
    let config ← liftExcept (o.parse config_json)
    log_progress "Configuration loaded successfully"
    mainFromConfig o config

/-- The observable outcome of one worker run: every message printed to
stdout in order, the exit status, and the external events. -/
structure RunOutcome where
  msgs : List Msg
  exitCode : Nat
  events : List Event

/-- `main()` (lines 584-698): run the `try` block from the empty trace;
on success print the single success message and exit 0, on any exception
print the single error message (exception text plus
`traceback.format_exc()`, modelled by `o.tbOf`) and exit 1. -/
def main (o : Oracles) : RunOutcome :=
  match mainBody o Trace.empty with
  | (t, .ok success_result) =>
    { msgs := t.msgs ++ [Msg.success success_result], exitCode := 0,
      events := t.events }
  | (t, .error e) =>
    { msgs := t.msgs ++ [Msg.error e (o.tbOf e)], exitCode := 1,
      events := t.events }

/-- The contains metric as the specification words it: "applies the same
normalization as exact-match (trim both strings; case-fold unless the
case-sensitive flag is set)" and then tests membership. This definition
follows the spec's words, for comparison against the source-translated
`contains_metric`. -/
def specContainsMetric (case_sensitive : Bool) (ex : Example)
    (pred : Prediction) : Bool :=
  match pred.answer with
  | none => false
  | some predAnswer =>
    let expected := pyStrip ex.answer
    let predicted := pyStrip predAnswer
    if !case_sensitive then
      pyIn (pyLower expected) (pyLower predicted)
    else
      pyIn expected predicted

/-- A concrete numbered example, for instantiating claims. -/
def exN (i : Nat) : Example :=
  { question := "q" ++ toString i, answer := "a" ++ toString i,
    inputKeys := ["question"] }

/-- A well-formed raw dataset item, for instantiating claims. -/
def item0 (q a : String) : RawItem :=
  { input := some (.s q), output := some (.s a) }

/-- A benign concrete environment for a given parsed configuration:
every oracle succeeds, so the run's outcome is decided by the
configuration alone. -/
def oraclesFor (cfg : ConfigDoc) : Oracles :=
  { stdin := "{}"
    parse := fun _ => .ok cfg
    dspyOk := true
    dspyVersion := "2.5.0"
    env := fun _ => ""
    execCustom := fun _ => .noMetricFunction
    semanticF1Available := true
    bootstrapCompile := fun _ _ _ _ => .ok ⟨[]⟩
    miproCompile := fun _ _ _ _ _ => .ok ⟨[]⟩
    evalScore := fun _ _ _ _ => .ok 1
    saveResult := fun _ _ => .ok ()
    abspath := fun s => s
    tbOf := fun e => "Traceback (most recent call last): " ++ e }

/-- A configuration that is valid up to the optimizer stage and selects
optimizer kind `t`. -/
def c6Config (t : String) : ConfigDoc :=
  { model_config := some {}
    train_dataset := some [item0 "q0" "a0", item0 "q1" "a1"]
    metric_config := some {}
    optimizer := some t }

/-- A configuration that is valid up to the metric stage and selects a
custom metric with empty code text. -/
def c8Config : ConfigDoc :=
  { model_config := some {}
    train_dataset := some [item0 "q0" "a0", item0 "q1" "a1"]
    metric_config := some { type := some "custom", code := some "" } }

/-- A configuration carrying only the three required keys; every
optional key is absent. -/
def c10Config : ConfigDoc :=
  { model_config := some {}
    train_dataset := some [item0 "q0" "a0", item0 "q1" "a1", item0 "q2" "a2",
      item0 "q3" "a3", item0 "q4" "a4"]
    metric_config := some {} }

/-- A computation only ever appends progress messages to the trace
(terminal messages are emitted by `main`'s wrapper alone). -/
def ProgressOnly {α : Type} (x : M α) : Prop :=
  ∀ t : Trace, ∃ δ : List Msg,
    (x t).1.msgs = t.msgs ++ δ ∧ ∀ m ∈ δ, isTerminalMsg m = false

/-! ## Theorems -/

theorem bind_def {α β : Type} (x : M α) (f : α → M β) :
    x >>= f = M.bind x f := rfl

theorem pure_def {α : Type} (a : α) : (Pure.pure a : M α) = M.pure a := rfl

theorem po_pure {α : Type} (a : α) : ProgressOnly (M.pure a) :=
  fun _ => ⟨[], by simp [M.pure], by simp⟩

theorem po_throw {α : Type} (e : String) :
    ProgressOnly (throwErr e : M α) :=
  fun _ => ⟨[], by simp [throwErr], by simp⟩

theorem po_lift {α : Type} (x : Except String α) :
    ProgressOnly (liftExcept x) :=
  fun _ => ⟨[], by simp [liftExcept], by simp⟩

theorem po_log (s : String) : ProgressOnly (log_progress s) :=
  fun _ => ⟨[Msg.progress s], by simp [log_progress], by simp [isTerminalMsg]⟩

theorem po_event (e : Event) : ProgressOnly (emitEvent e) :=
  fun _ => ⟨[], by simp [emitEvent], by simp⟩

theorem po_bind {α β : Type} {x : M α} {f : α → M β}
    (hx : ProgressOnly x) (hf : ∀ a, ProgressOnly (f a)) :
    ProgressOnly (M.bind x f) := by
  intro t
  obtain ⟨d1, h1, hp1⟩ := hx t
  rcases hxt : x t with ⟨t', r⟩
  rw [hxt] at h1
  cases r with
  | error e =>
    exact ⟨d1, by simpa [M.bind, hxt] using h1, hp1⟩
  | ok a =>
    obtain ⟨d2, h2, hp2⟩ := hf a t'
    refine ⟨d1 ++ d2, ?_, ?_⟩
    · simp only [M.bind, hxt]
      simp only [h2]
      simp at h1
      simp [h1]
    · intro m hm
      rcases List.mem_append.1 hm with h | h
      exacts [hp1 m h, hp2 m h]

theorem po_setup (env : String → String) (config : ModelConfig) :
    ProgressOnly (setup_language_model env config) := by
  unfold setup_language_model
  simp only [bind_def, pure_def]
  repeat' first
    | exact po_log _
    | exact po_pure _
    | exact po_throw _
    | exact po_event _
    | exact po_lift _
    | apply po_bind
    | split
    | intro _

theorem po_prepare (dataset_raw : List RawItem) (dataset_name : String) :
    ProgressOnly (prepare_dataset dataset_raw dataset_name) := by
  unfold prepare_dataset
  simp only [bind_def, pure_def]
  repeat' first
    | exact po_log _
    | exact po_pure _
    | exact po_throw _
    | exact po_event _
    | exact po_lift _
    | apply po_bind
    | split
    | intro _

theorem po_autoSplitStep (trainset : List Example) :
    ProgressOnly (autoSplitStep trainset) := by
  unfold autoSplitStep
  simp only [bind_def, pure_def]
  repeat' first
    | exact po_log _
    | exact po_pure _
    | exact po_throw _
    | exact po_event _
    | exact po_lift _
    | apply po_bind
    | split
    | intro _

theorem po_create_metric (execCustom : String → ExecOutcome)
    (semanticF1Available : Bool) (metric_config : MetricConfig) :
    ProgressOnly (create_metric execCustom semanticF1Available metric_config) := by
  unfold create_metric
  simp only [bind_def, pure_def]
  repeat' first
    | exact po_log _
    | exact po_pure _
    | exact po_throw _
    | exact po_event _
    | exact po_lift _
    | apply po_bind
    | split
    | intro _

theorem po_create_program (program_type : String) :
    ProgressOnly (create_dspy_program program_type) := by
  unfold create_dspy_program
  simp only [bind_def, pure_def]
  repeat' first
    | exact po_log _
    | exact po_pure _
    | exact po_throw _
    | exact po_event _
    | exact po_lift _
    | apply po_bind
    | split
    | intro _

theorem po_bootstrap (compileOracle : Program → List Example → Metric →
      BootstrapSettings → Except String CompiledProgram)
    (program : Program) (trainset : List Example) (metric : Metric)
    (config : OptimizerConfig) :
    ProgressOnly (run_bootstrap_fewshot compileOracle program trainset
      metric config) := by
  unfold run_bootstrap_fewshot
  simp only [bind_def, pure_def]
  repeat' first
    | exact po_log _
    | exact po_pure _
    | exact po_throw _
    | exact po_event _
    | exact po_lift _
    | apply po_bind
    | split
    | intro _

theorem po_mipro (compileOracle : Program → List Example → List Example →
      Metric → MiproSettings → Except String CompiledProgram)
    (program : Program) (trainset valset : List Example) (metric : Metric)
    (config : OptimizerConfig) :
    ProgressOnly (run_mipro compileOracle program trainset valset metric
      config) := by
  unfold run_mipro
  simp only [bind_def, pure_def]
  repeat' first
    | exact po_log _
    | exact po_pure _
    | exact po_throw _
    | exact po_event _
    | exact po_lift _
    | apply po_bind
    | split
    | intro _

theorem po_evaluate (evalOracle : CompiledProgram → List Example → Metric →
      Int → Except String ℚ)
    (program : CompiledProgram) (devset : List Example) (metric : Metric)
    (num_threads : Int) :
    ProgressOnly (evaluate_program evalOracle program devset metric
      num_threads) := by
  unfold evaluate_program
  simp only [bind_def, pure_def]
  repeat' first
    | exact po_log _
    | exact po_pure _
    | exact po_throw _
    | exact po_event _
    | exact po_lift _
    | apply po_bind
    | split
    | intro _

theorem po_extract (compiled_program : CompiledProgram) :
    ProgressOnly (extract_optimized_results compiled_program) := by
  unfold extract_optimized_results
  simp only [bind_def, pure_def]
  repeat' first
    | exact po_log _
    | exact po_pure _
    | exact po_throw _
    | exact po_event _
    | exact po_lift _
    | apply po_bind
    | split
    | intro _

theorem po_save (saveOracle : CompiledProgram → String → Except String Unit)
    (abspath : String → String) (compiled_program : CompiledProgram)
    (save_path : String) :
    ProgressOnly (save_compiled_program saveOracle abspath compiled_program
      save_path) := by
  unfold save_compiled_program
  simp only [bind_def, pure_def]
  repeat' first
    | exact po_log _
    | exact po_pure _
    | exact po_throw _
    | exact po_event _
    | exact po_lift _
    | apply po_bind
    | split
    | intro _

theorem po_requireKey {α : Type} (key : String) (v : Option α) :
    ProgressOnly (requireKey key v) := by
  cases v with
  | none => exact po_throw _
  | some a => exact po_pure _

theorem po_datasetSplitStage (config : ConfigDoc)
    (trainset0 : List Example) :
    ProgressOnly (datasetSplitStage config trainset0) := by
  unfold datasetSplitStage
  simp only [bind_def, pure_def]
  repeat' first
    | exact po_autoSplitStep _
    | refine po_bind (po_prepare _ _) fun _ => ?_
    | exact po_pure _
    | split

theorem po_optimizerStage (o : Oracles) (optimizer_type : String)
    (program : Program) (trainset valset : List Example) (metric : Metric)
    (optimizer_config : OptimizerConfig) :
    ProgressOnly (optimizerStage o optimizer_type program trainset valset
      metric optimizer_config) := by
  unfold optimizerStage
  split
  · exact po_bootstrap _ _ _ _ _
  · split
    · exact po_mipro _ _ _ _ _ _
    · exact po_throw _

theorem po_mainFromConfig (o : Oracles) (config : ConfigDoc) :
    ProgressOnly (mainFromConfig o config) := by
  unfold mainFromConfig
  simp only [bind_def, pure_def]
  refine po_bind (po_log _) fun _ => ?_
  split
  · refine po_bind (po_log _) fun _ => ?_
    refine po_bind (po_log _) fun _ => ?_
    refine po_bind (po_requireKey _ _) fun _ => ?_
    refine po_bind (po_setup _ _) fun _ => ?_
    refine po_bind (po_log _) fun _ => ?_
    refine po_bind (po_requireKey _ _) fun _ => ?_
    refine po_bind (po_prepare _ _) fun _ => ?_
    refine po_bind (po_datasetSplitStage _ _) fun _ => ?_
    refine po_bind (po_log _) fun _ => ?_
    refine po_bind (po_requireKey _ _) fun _ => ?_
    refine po_bind (po_create_metric _ _ _) fun _ => ?_
    refine po_bind (po_create_program _) fun _ => ?_
    refine po_bind (po_log _) fun _ => ?_
    refine po_bind (po_log _) fun _ => ?_
    refine po_bind (po_optimizerStage _ _ _ _ _ _ _) fun _ => ?_
    refine po_bind (po_log _) fun _ => ?_
    refine po_bind (po_evaluate _ _ _ _ _) fun _ => ?_
    refine po_bind (po_log _) fun _ => ?_
    refine po_bind (po_extract _) fun _ => ?_
    refine po_bind (po_save _ _ _ _) fun _ => ?_
    refine po_bind (po_log _) fun _ => ?_
    exact po_pure _
  · exact po_throw _

theorem po_mainBody (o : Oracles) : ProgressOnly (mainBody o) := by
  unfold mainBody
  simp only [bind_def, pure_def]
  refine po_bind (po_log _) fun _ => ?_
  split
  · exact po_throw _
  · refine po_bind (po_log _) fun _ => ?_
    refine po_bind (po_lift _) fun _ => ?_
    refine po_bind (po_log _) fun _ => ?_
    exact po_mainFromConfig _ _

/-- C1: every run of `main` emits exactly one terminal message: the
message stream ends in a single success or error message and contains no
other terminal message; the exit status is 0 exactly when the terminal
message is a success, and 1 exactly when it is an error carrying the
exception's text together with a traceback string; and a failed run
never emits a success message — once a stage raises, the remaining
stages are skipped. -/
theorem main_single_terminal_message (o : Oracles) :
    ((main o).msgs.countP isTerminalMsg = 1) ∧
    ((main o).exitCode = 0 ∨ (main o).exitCode = 1) ∧
    ((main o).exitCode = 0 ↔
      ∃ s, (main o).msgs.getLast? = some (Msg.success s)) ∧
    ((main o).exitCode = 1 ↔
      ∃ e, (main o).msgs.getLast? = some (Msg.error e (o.tbOf e))) ∧
    ((main o).exitCode = 1 → ∀ s, Msg.success s ∉ (main o).msgs) := by
  obtain ⟨d, hd, hp⟩ := po_mainBody o Trace.empty
  have hcount : d.countP isTerminalMsg = 0 :=
    List.countP_eq_zero.mpr fun m hm => by simp [hp m hm]
  rcases h : mainBody o Trace.empty with ⟨t, r⟩
  rw [h] at hd
  simp only [Trace.empty, List.nil_append] at hd
  cases r with
  | ok s =>
    have hmain : main o =
        RunOutcome.mk (t.msgs ++ [Msg.success s]) 0 t.events := by
      unfold main; rw [h]
    rw [hmain]
    refine ⟨?_, Or.inl rfl, ?_, ?_, ?_⟩
    · simp [hd, List.countP_append, hcount, isTerminalMsg, List.countP_cons]
    · constructor
      · intro _; exact ⟨s, by simp⟩
      · intro _; rfl
    · constructor
      · intro h01; simp at h01
      · rintro ⟨e, he⟩
        simp at he
    · intro h01; simp at h01
  | error e =>
    have hmain : main o =
        RunOutcome.mk (t.msgs ++ [Msg.error e (o.tbOf e)]) 1 t.events := by
      unfold main; rw [h]
    rw [hmain]
    refine ⟨?_, Or.inr rfl, ?_, ?_, ?_⟩
    · simp [hd, List.countP_append, hcount, isTerminalMsg, List.countP_cons]
    · constructor
      · intro h01; simp at h01
      · rintro ⟨s, hs⟩
        simp at hs
    · constructor
      · intro _; exact ⟨e, by simp⟩
      · intro _; rfl
    · intro _ s hs
      simp only [List.mem_append] at hs
      rcases hs with hs | hs
      · have := hp _ (hd ▸ hs)
        simp [isTerminalMsg] at this
      · simp at hs

/-- C3: the exact-match metric scores false when the prediction lacks
the answer field, never raising; otherwise both answer strings are
trimmed, and additionally lower-cased unless the case-sensitive flag is
set, then compared for equality. By default
`Example(answer="Paris")` vs `Prediction(answer=" paris ")` scores true,
and with the case-sensitive flag set it scores false. -/
theorem exact_match_metric_spec :
    (∀ (cs : Bool) (ex : Example), exact_match_metric cs ex ⟨none⟩ = false) ∧
    (∀ (ex : Example) (a : String),
      exact_match_metric false ex ⟨some a⟩ =
        (pyLower (pyStrip ex.answer) == pyLower (pyStrip a)) ∧
      exact_match_metric true ex ⟨some a⟩ =
        (pyStrip ex.answer == pyStrip a)) ∧
    exact_match_metric false ⟨"", "Paris", []⟩ ⟨some " paris "⟩ = true ∧
    exact_match_metric true ⟨"", "Paris", []⟩ ⟨some " paris "⟩ = false :=
  ⟨fun _ _ => rfl, fun _ _ => ⟨rfl, rfl⟩, by decide, by decide⟩

/-- C4 counterexample: the contains metric does not apply the
exact-match normalization when the case-sensitive flag is set — the
source skips trimming entirely in that case — so at
`Example(answer=" cat ")` and `Prediction(answer="cat")` the code scores
false while the claimed normalization (trim both strings, then test
membership) scores true. -/
theorem contains_metric_not_exact_match_normalization :
    contains_metric true ⟨"", " cat ", []⟩ ⟨some "cat"⟩ = false ∧
    specContainsMetric true ⟨"", " cat ", []⟩ ⟨some "cat"⟩ = true := by
  decide

/-- C4 amended: the contains metric scores false for a prediction
lacking the answer field; when the case-sensitive flag is not set it
trims and lower-cases both strings exactly as exact-match does, but when
the flag is set it applies no normalization at all (neither trim nor
case-fold); it then tests membership of the expected answer string in
the predicted answer string. `Example(answer="cat")` vs
`Prediction(answer="the cat sat")` scores true by default, and reversed
(expected longer than predicted) scores false. -/
theorem contains_metric_spec :
    (∀ (cs : Bool) (ex : Example), contains_metric cs ex ⟨none⟩ = false) ∧
    (∀ (ex : Example) (a : String),
      contains_metric false ex ⟨some a⟩ =
        pyIn (pyLower (pyStrip ex.answer)) (pyLower (pyStrip a)) ∧
      contains_metric true ex ⟨some a⟩ = pyIn ex.answer a) ∧
    contains_metric false ⟨"", "cat", []⟩ ⟨some "the cat sat"⟩ = true ∧
    contains_metric false ⟨"", "the cat sat", []⟩ ⟨some "cat"⟩ = false :=
  ⟨fun _ _ => rfl, fun _ _ => ⟨rfl, rfl⟩, by decide, by decide⟩

/-- For every non-empty trainset the computed split index is strictly
below the length, so the split branch always fires and the "dataset too
small" fallback of lines 628-631 is unreachable. -/
theorem splitIdx_lt (n : Nat) (hn : 0 < n) : splitIdx n < n := by
  unfold splitIdx
  omega

/-- C2: the auto-split at trainset length 10 yields the first 8 examples
as train and the last 2 as validation, in order; but at length 1 the
computed split index 0 is still strictly below the length, so the split
branch fires, leaving an empty trainset and the single example as the
whole validation set — not, as the claim (and the source's own
"dataset too small" comment) states, the original set for both. -/
theorem autoSplit_at_10_and_1 :
    autoSplit ((List.range 10).map exN) =
      ((List.range 8).map exN, [exN 8, exN 9],
        "Auto-split dataset: 8 train, 2 val") ∧
    autoSplit [exN 0] =
      ([], [exN 0], "Auto-split dataset: 0 train, 1 val") := by
  constructor
  · decide
  · decide

theorem prepareItems_ok (name : String) (raw : List RawItem)
    (h : ∀ item ∈ raw, item.input.isSome ∧ item.output.isSome) :
    ∀ i, prepareItems name raw i =
      Except.ok (raw.map fun item =>
        { question := pyStr (item.input.getD .null),
          answer := pyStr (item.output.getD .null),
          inputKeys := ["question"] }) := by
  induction raw with
  | nil => intro i; rfl
  | cons hd tl ih =>
    intro i
    obtain ⟨h1, h2⟩ := h hd (by simp)
    rcases hhd1 : hd.input with _ | v1
    · rw [hhd1] at h1; simp at h1
    rcases hhd2 : hd.output with _ | v2
    · rw [hhd2] at h2; simp at h2
    have := ih (fun it hit => h it (by simp [hit])) (i + 1)
    simp [prepareItems, hhd1, hhd2, this]

theorem prepareItems_missing (name : String) (good : List RawItem)
    (bad : RawItem) (rest : List RawItem)
    (hg : ∀ item ∈ good, item.input.isSome ∧ item.output.isSome)
    (hb : bad.input = none ∨ bad.output = none) :
    ∀ i, prepareItems name (good ++ bad :: rest) i =
      Except.error (prepareMissingMsg name (i + good.length)) := by
  induction good with
  | nil =>
    intro i
    rcases hb with hb | hb
    · simp [prepareItems, hb]
    · rcases hbi : bad.input with _ | v
      · simp [prepareItems, hbi]
      · simp [prepareItems, hbi, hb]
  | cons hd tl ih =>
    intro i
    obtain ⟨h1, h2⟩ := hg hd (by simp)
    rcases hhd1 : hd.input with _ | v1
    · rw [hhd1] at h1; simp at h1
    rcases hhd2 : hd.output with _ | v2
    · rw [hhd2] at h2; simp at h2
    have := ih (fun it hit => hg it (by simp [hit])) (i + 1)
    simp [prepareItems, hhd1, hhd2, this]
    congr 1
    omega

/-- C5: for every non-empty raw pair sequence whose elements all carry
`input` and `output`, preparation returns the same-length sequence of
examples whose question/answer are the string coercions of the
corresponding input/output, with exactly `question` marked as input
field; an empty sequence yields a validation error naming the dataset
label; a sequence with an offending element yields a validation error
naming the label and the first offending index. -/
theorem prepare_dataset_spec :
    (∀ (name : String) (raw : List RawItem) (t : Trace),
      raw ≠ [] →
      (∀ item ∈ raw, item.input.isSome ∧ item.output.isSome) →
      (prepare_dataset raw name t).2 =
        Except.ok (raw.map fun item =>
          { question := pyStr (item.input.getD .null),
            answer := pyStr (item.output.getD .null),
            inputKeys := ["question"] })) ∧
    (∀ (name : String) (t : Trace),
      (prepare_dataset [] name t).2 = Except.error s!"{name} is empty") ∧
    (∀ (name : String) (good : List RawItem) (bad : RawItem)
        (rest : List RawItem) (t : Trace),
      (∀ item ∈ good, item.input.isSome ∧ item.output.isSome) →
      (bad.input = none ∨ bad.output = none) →
      (prepare_dataset (good ++ bad :: rest) name t).2 =
        Except.error (prepareMissingMsg name good.length)) := by
  refine ⟨?_, ?_, ?_⟩
  · intro name raw t hne h
    have hok := prepareItems_ok name raw h 0
    simp [prepare_dataset, hne, bind_def, M.bind, liftExcept, hok,
      log_progress, M.pure]
  · intro name t
    rfl
  · intro name good bad rest t hg hb
    have herr := prepareItems_missing name good bad rest hg hb 0
    have hne : good ++ bad :: rest ≠ [] := by simp
    simp [prepare_dataset, hne, bind_def, M.bind, liftExcept, herr,
      log_progress, M.pure]

/-- C6 counterexample: at the unsupported optimizer kind "GEPA" the job
fails with terminal error message "Unknown optimizer: GEPA", which does
contain the literal unsupported value but does not name the allowed
optimizer set — neither "BootstrapFewShot" nor "MIPRO"/"MIPROv2" occurs
in it — so the error does not, as claimed, name the allowed set. No
model call (optimizer compilation or evaluation) happens: the only
external event is the model installation. -/
theorem unknown_optimizer_no_allowed_set :
    (main (oraclesFor (c6Config "GEPA"))).exitCode = 1 ∧
    (main (oraclesFor (c6Config "GEPA"))).msgs.getLast? =
      some (Msg.error "Unknown optimizer: GEPA"
        ((oraclesFor (c6Config "GEPA")).tbOf "Unknown optimizer: GEPA")) ∧
    pyIn "GEPA" "Unknown optimizer: GEPA" = true ∧
    pyIn "BootstrapFewShot" "Unknown optimizer: GEPA" = false ∧
    pyIn "MIPRO" "Unknown optimizer: GEPA" = false ∧
    (main (oraclesFor (c6Config "GEPA"))).events = [Event.configure] := by
  decide

set_option maxHeartbeats 1000000 in
/-- C6 amended: for every optimizer kind outside
{BootstrapFewShot, MIPRO, MIPROv2} the job fails with exit status 1 and
terminal error message "Unknown optimizer: " followed by the literal
unsupported value (the allowed set is not named in the message), and no
model call is attempted before that failure: no optimizer compilation
and no evaluation event occurs, only the model installation. -/
theorem unknown_optimizer_fails_before_model_call (t : String)
    (h1 : t ≠ "BootstrapFewShot") (h2 : t ≠ "MIPRO") (h3 : t ≠ "MIPROv2") :
    (main (oraclesFor (c6Config t))).exitCode = 1 ∧
    (main (oraclesFor (c6Config t))).msgs.getLast? =
      some (Msg.error s!"Unknown optimizer: {t}"
        ((oraclesFor (c6Config t)).tbOf s!"Unknown optimizer: {t}")) ∧
    (main (oraclesFor (c6Config t))).events = [Event.configure] := by
  simp [main, mainBody, mainFromConfig, oraclesFor, c6Config, bind_def,
    pure_def, M.bind, M.pure, log_progress, emitEvent, throwErr, liftExcept,
    requireKey, setup_language_model, prepare_dataset, prepareItems,
    datasetSplitStage, autoSplitStep, autoSplit, splitIdx, create_metric,
    create_dspy_program, optimizerStage, Trace.empty, pyStrip, pyIsSpace,
    h1, h2, h3, item0, pyStr]

/-- C6 witness: the amended theorem applied at the concrete unsupported
optimizer kind "FooOpt". -/
theorem unknown_optimizer_witness :
    (main (oraclesFor (c6Config "FooOpt"))).exitCode = 1 ∧
    (main (oraclesFor (c6Config "FooOpt"))).events = [Event.configure] :=
  ⟨(unknown_optimizer_fails_before_model_call "FooOpt" (by decide)
      (by decide) (by decide)).1,
   (unknown_optimizer_fails_before_model_call "FooOpt" (by decide)
      (by decide) (by decide)).2.2⟩

/-- C7: the two factories are asymmetric on unknown kinds: for every
metric kind outside {exact_match, contains, semantic_f1, custom} the
metric factory raises a ValueError naming the offending value and the
allowed set, whereas for every program kind outside
{predict, chain_of_thought, react} the program factory succeeds,
logging a substitution progress message and returning the
direct-prediction program `SimpleQA`. -/
theorem factory_unknown_kind_asymmetry :
    (∀ (execC : String → ExecOutcome) (sem : Bool) (mc : MetricConfig)
        (mt : String) (t : Trace),
      mc.type = some mt → mt ≠ "exact_match" → mt ≠ "contains" →
      mt ≠ "semantic_f1" → mt ≠ "custom" →
      (create_metric execC sem mc t).2 = Except.error
        s!"Unknown metric type: {mt}. Use 'exact_match', 'contains', 'semantic_f1', or 'custom'.") ∧
    (∀ (pt : String) (t : Trace),
      pt ≠ "predict" → pt ≠ "chain_of_thought" → pt ≠ "react" →
      (create_dspy_program pt t).2 = Except.ok Program.simpleQA ∧
      (create_dspy_program pt t).1.msgs = t.msgs ++
        [Msg.progress s!"Creating DSPy program: {pt}",
         Msg.progress s!"Unknown program type '{pt}', using 'predict'",
         Msg.progress "Creating DSPy program: predict"]) := by
  constructor
  · intro execC sem mc mt t hmc h1 h2 h3 h4
    simp [create_metric, hmc, h1, h2, h3, h4, bind_def, M.bind, M.pure,
      log_progress, throwErr]
  · intro pt t h1 h2 h3
    constructor
    · simp [create_dspy_program, h1, h2, h3, bind_def, M.bind, M.pure,
        log_progress]
    · simp [create_dspy_program, h1, h2, h3, bind_def, M.bind, M.pure,
        log_progress]

/-- C7 witness: the asymmetry theorem applied at the concrete unknown
metric kind "bleu" and unknown program kind "program_of_thought". -/
theorem factory_asymmetry_witness :
    (create_metric (fun _ => .noMetricFunction) true
      { type := some "bleu" } Trace.empty).2 = Except.error
      "Unknown metric type: bleu. Use 'exact_match', 'contains', 'semantic_f1', or 'custom'." ∧
    (create_dspy_program "program_of_thought" Trace.empty).2 =
      Except.ok Program.simpleQA :=
  ⟨factory_unknown_kind_asymmetry.1 _ true _ "bleu" Trace.empty rfl
      (by decide) (by decide) (by decide) (by decide),
   (factory_unknown_kind_asymmetry.2 "program_of_thought" Trace.empty
      (by decide) (by decide) (by decide)).1⟩

/-- C8: custom metric construction fails with a descriptive compile
error when the code text is empty or whitespace-only, when executing it
raises, when it defines no `metric_function`, or when that name is not
callable; otherwise the defined callable is returned. For empty code the
whole job fails before any model call: the run exits 1 with the
required-code error as terminal message and performs no optimizer
compilation or evaluation event. -/
theorem custom_metric_compile_errors :
    (∀ (execC : String → ExecOutcome) (sem : Bool) (mc : MetricConfig)
        (t : Trace),
      mc.type = some "custom" → pyStrip (mc.code.getD "") = "" →
      (create_metric execC sem mc t).2 = Except.error
        "Custom metric requires 'code' field with Python function") ∧
    (∀ (execC : String → ExecOutcome) (sem : Bool) (mc : MetricConfig)
        (code e : String) (t : Trace),
      mc.type = some "custom" → mc.code = some code → pyStrip code ≠ "" →
      execC code = .raised e →
      (create_metric execC sem mc t).2 = Except.error
        s!"Failed to compile custom metric: {e}") ∧
    (∀ (execC : String → ExecOutcome) (sem : Bool) (mc : MetricConfig)
        (code : String) (t : Trace),
      mc.type = some "custom" → mc.code = some code → pyStrip code ≠ "" →
      execC code = .noMetricFunction →
      (create_metric execC sem mc t).2 = Except.error
        "Failed to compile custom metric: Custom metric code must define 'metric_function'") ∧
    (∀ (execC : String → ExecOutcome) (sem : Bool) (mc : MetricConfig)
        (code : String) (t : Trace),
      mc.type = some "custom" → mc.code = some code → pyStrip code ≠ "" →
      execC code = .notCallable →
      (create_metric execC sem mc t).2 = Except.error
        "Failed to compile custom metric: metric_function must be a callable function") ∧
    (∀ (execC : String → ExecOutcome) (sem : Bool) (mc : MetricConfig)
        (code : String) (f : CustomFn) (t : Trace),
      mc.type = some "custom" → mc.code = some code → pyStrip code ≠ "" →
      execC code = .ok f →
      (create_metric execC sem mc t).2 = Except.ok (Metric.custom f)) ∧
    ((main (oraclesFor c8Config)).exitCode = 1 ∧
     (main (oraclesFor c8Config)).msgs.getLast? = some (Msg.error
       "Custom metric requires 'code' field with Python function"
       ((oraclesFor c8Config).tbOf
         "Custom metric requires 'code' field with Python function")) ∧
     (main (oraclesFor c8Config)).events = [Event.configure]) := by
  refine ⟨?_, ?_, ?_, ?_, ?_, by decide⟩
  · intro execC sem mc t hmc hcode
    simp [create_metric, hmc, hcode, bind_def, M.bind, M.pure,
      log_progress, throwErr]
  · intro execC sem mc code e t hmc hcode hne hexec
    simp [create_metric, hmc, hcode, hne, hexec, bind_def, M.bind, M.pure,
      log_progress, throwErr]
  · intro execC sem mc code t hmc hcode hne hexec
    simp [create_metric, hmc, hcode, hne, hexec, bind_def, M.bind, M.pure,
      log_progress, throwErr]
  · intro execC sem mc code t hmc hcode hne hexec
    simp [create_metric, hmc, hcode, hne, hexec, bind_def, M.bind, M.pure,
      log_progress, throwErr]
  · intro execC sem mc code f t hmc hcode hne hexec
    simp [create_metric, hmc, hcode, hne, hexec, bind_def, M.bind, M.pure,
      log_progress, throwErr]

/-- C8 witness: the compile-error theorem applied at a concrete
whitespace-only custom code text. -/
theorem custom_metric_witness :
    (create_metric (fun _ => .noMetricFunction) true
      { type := some "custom", code := some "   " } Trace.empty).2 =
      Except.error "Custom metric requires 'code' field with Python function" :=
  custom_metric_compile_errors.1 _ true _ Trace.empty rfl (by decide)

/-- C9: model provisioning resolves the local-hosted provider to the
fixed endpoint http://localhost:11434 with an empty credential when no
base URL is supplied; for each cloud provider a missing (or empty)
credential falls back to that provider's environment variable; and every
other provider name fails with an explicit unsupported-provider error
naming the value and the allowed set, without installing any active
model (no configure event). -/
theorem setup_language_model_spec :
    (∀ (env : String → String) (mc : ModelConfig) (t : Trace),
      mc.provider = some "ollama" → mc.api_base = none →
      (setup_language_model env mc t).2 = Except.ok
        { model := "ollama_chat/" ++ mc.model.getD "llama3.2:1b",
          api_key := "", api_base := some "http://localhost:11434" }) ∧
    (∀ (env : String → String) (mc : ModelConfig) (t : Trace),
      mc.provider = some "openai" →
      (mc.api_key = none ∨ mc.api_key = some "") →
      (setup_language_model env mc t).2 = Except.ok
        { model := "openai/" ++ mc.model.getD "llama3.2:1b",
          api_key := env "OPENAI_API_KEY", api_base := none }) ∧
    (∀ (env : String → String) (mc : ModelConfig) (t : Trace),
      mc.provider = some "anthropic" →
      (mc.api_key = none ∨ mc.api_key = some "") →
      (setup_language_model env mc t).2 = Except.ok
        { model := "anthropic/" ++ mc.model.getD "llama3.2:1b",
          api_key := env "ANTHROPIC_API_KEY", api_base := none }) ∧
    (∀ (env : String → String) (mc : ModelConfig) (p : String) (t : Trace),
      mc.provider = some p → p ≠ "ollama" → p ≠ "openai" → p ≠ "anthropic" →
      (setup_language_model env mc t).2 = Except.error
        s!"Unsupported provider: {p}. Use 'ollama', 'openai', or 'anthropic'." ∧
      (setup_language_model env mc t).1.events = t.events) := by
  refine ⟨?_, ?_, ?_, ?_⟩
  · intro env mc t hp hb
    simp [setup_language_model, hp, hb, pyOrStr, bind_def, M.bind, M.pure,
      log_progress, emitEvent, throwErr]
  · intro env mc t hp hk
    rcases hk with hk | hk <;>
      simp [setup_language_model, hp, hk, bind_def, M.bind, M.pure,
        log_progress, emitEvent, throwErr]
  · intro env mc t hp hk
    rcases hk with hk | hk <;>
      simp [setup_language_model, hp, hk, bind_def, M.bind, M.pure,
        log_progress, emitEvent, throwErr]
  · intro env mc p t hp h1 h2 h3
    constructor <;>
      simp [setup_language_model, hp, h1, h2, h3, bind_def, M.bind, M.pure,
        log_progress, emitEvent, throwErr]

/-- C9 witness: the provisioning theorem applied at a concrete openai
descriptor with no credential and at a concrete unsupported provider. -/
theorem setup_language_model_witness :
    (setup_language_model (fun _ => "sk-env")
      { provider := some "openai" } Trace.empty).2 = Except.ok
      { model := "openai/llama3.2:1b", api_key := "sk-env",
        api_base := none } ∧
    (setup_language_model (fun _ => "")
      { provider := some "grok" } Trace.empty).2 = Except.error
      "Unsupported provider: grok. Use 'ollama', 'openai', or 'anthropic'." :=
  ⟨setup_language_model_spec.2.1 _ _ Trace.empty rfl (Or.inl rfl),
   (setup_language_model_spec.2.2.2 _ _ "grok" Trace.empty rfl
      (by decide) (by decide) (by decide)).1⟩

/-- C10: absence of the optional configuration keys is never an error —
a run behaves identically with a missing provider and with provider
"ollama", with a missing metric kind and with "exact_match", with a
missing program kind and with "predict", with a missing optimizer and
with "BootstrapFewShot", and with a missing save path and with
"./dspy_compiled_program"; the three bracket-accessed keys
model_config, train_dataset and metric_config each raise a KeyError
when absent; and a configuration carrying only those three keys runs to
success with all the defaults observable in its outcome. -/
theorem optional_keys_default :
    (∀ (env : String → String) (mc : ModelConfig),
      setup_language_model env { mc with provider := none } =
      setup_language_model env { mc with provider := some "ollama" }) ∧
    (∀ (execC : String → ExecOutcome) (sem : Bool) (mc : MetricConfig),
      create_metric execC sem { mc with type := none } =
      create_metric execC sem { mc with type := some "exact_match" }) ∧
    (∀ (o : Oracles) (cfg : ConfigDoc),
      mainFromConfig o { cfg with program_type := none } =
      mainFromConfig o { cfg with program_type := some "predict" }) ∧
    (∀ (o : Oracles) (cfg : ConfigDoc),
      mainFromConfig o { cfg with optimizer := none } =
      mainFromConfig o { cfg with optimizer := some "BootstrapFewShot" }) ∧
    (∀ (o : Oracles) (cfg : ConfigDoc),
      mainFromConfig o { cfg with save_path := none } =
      mainFromConfig o
        { cfg with save_path := some "./dspy_compiled_program" }) ∧
    ((mainFromConfig (oraclesFor {}) {} Trace.empty).2 =
      Except.error "'model_config'") ∧
    ((mainFromConfig (oraclesFor {}) { model_config := some {} }
        Trace.empty).2 = Except.error "'train_dataset'") ∧
    ((mainFromConfig (oraclesFor {})
        { model_config := some {},
          train_dataset := c10Config.train_dataset } Trace.empty).2 =
      Except.error "'metric_config'") ∧
    ((main (oraclesFor c10Config)).exitCode = 0 ∧
     (main (oraclesFor c10Config)).msgs.getLast? = some (Msg.success
       { validation_score := 1, optimized_signature := [],
         optimized_demos := [], predictors := [],
         compiled_program_path := "./dspy_compiled_program",
         dataset_sizes_train := 4, dataset_sizes_val := 1,
         optimizer := "BootstrapFewShot", program_type := "predict" }) ∧
     Msg.progress "Configuring ollama with model llama3.2:1b" ∈
       (main (oraclesFor c10Config)).msgs ∧
     Msg.progress "Creating metric: exact_match" ∈
       (main (oraclesFor c10Config)).msgs) := by
  refine ⟨fun env mc => rfl, fun execC sem mc => rfl, fun o cfg => rfl,
    fun o cfg => rfl, fun o cfg => rfl, rfl, rfl, rfl, by decide⟩

end DspyOptimizer
